import Mathlib

/-!
Verification of the kit worker (`loolwsd/LOOLKit.cpp`): a shallow embedding of
the jail-copy filter, the Document session map and its operations
(`createSession`, `purgeSessions`, `hasSessions`, `canDiscard`), the
load/password machinery (`load`, `onLoad`, `setDocumentPassword`), the
`nextmessage` sentinel logic of the frame senders, the per-view engine
callback (`ViewCallback`) and the dispatch loop's `callback` branch.

Machine integers are modelled as `Nat`/`Int`; `size_t` wrap-around is made
explicit where it matters (the `(size_t)-1` sentinel of `purgeSessions`).
C++ code that throws is modelled with `Option`: `none` means an exception
escaped the modelled fragment.
-/

namespace LOOLKit

/-- `LinkOrCopyType` from LOOLKit.cpp (anonymous namespace). -/
inductive LinkOrCopyType
  | COPY_ALL
  | COPY_LO
  | COPY_NO_USR
  deriving DecidableEq, Repr

/-- `shouldCopyDir` from LOOLKit.cpp.  The C++ reads the mode from the file-scope
variable `linkOrCopyType`; here it is an explicit argument.  The source lists
`share/config/wizard` twice; the duplicate conjunct is kept verbatim. -/
def shouldCopyDir (t : LinkOrCopyType) (path : String) : Bool :=
  match t with
  | .COPY_NO_USR => !(path == "usr")
  | .COPY_LO =>
      !(path == "program/wizards") &&
      !(path == "sdk") &&
      !(path == "share/basic") &&
      !(path == "share/gallery") &&
      !(path == "share/Scripts") &&
      !(path == "share/template") &&
      !(path == "share/config/wizard") &&
      !(path == "share/config/wizard")
  | .COPY_ALL => true

/-- The subtrees excluded in `COPY_LO` mode. -/
def loSkippedDirs : List String :=
  ["program/wizards", "sdk", "share/basic", "share/gallery",
   "share/Scripts", "share/template", "share/config/wizard"]

/-- Per-view session state (`ChildSession`).  Only the attributes the claims
touch are modelled: the id, the engine view id, the close-frame flag and the
active flag. -/
structure ChildSession where
  sessionId : String
  viewId : Int
  isCloseFrame : Bool
  isActive : Bool
  deriving DecidableEq, Repr

/-- Modelled from the spec: the `ChildSession` constructor lives in
ChildSession.cpp, which is not part of the sources.  Per spec section 3 a
fresh session has its close-frame flag clear and no engine view yet (the view
id is assigned at load). -/
def newChildSession (sid : String) : ChildSession :=
  { sessionId := sid, viewId := -1, isCloseFrame := false, isActive := false }

/-- The `_sessions` map (`std::map<std::string, std::shared_ptr<ChildSession>>`),
modelled as an association list kept sorted by key so that list order is the
map's iteration order. -/
def SessionMap := List (String × ChildSession)

instance : DecidableEq SessionMap := by
  unfold SessionMap
  infer_instance

/-- Insertion at the sorted position, as `std::map::emplace` does for a key
that is not yet present. -/
def insertSorted (m : List (String × ChildSession)) (k : String) (v : ChildSession) :
    List (String × ChildSession) :=
  match m with
  | [] => [(k, v)]
  | (k', v') :: rest =>
      if k < k' then (k, v) :: (k', v') :: rest
      else (k', v') :: insertSorted rest k v

/-- Password kinds (`Document::PasswordType`). -/
inductive PasswordType
  | ToView
  | ToModify
  deriving DecidableEq, Repr

/-- The two password callback types the engine can fire during `documentLoad`
(`LOK_CALLBACK_DOCUMENT_PASSWORD` and `LOK_CALLBACK_DOCUMENT_PASSWORD_TO_MODIFY`). -/
inductive PwCallback
  | toView
  | toModify
  deriving DecidableEq, Repr

/-- The Document state: the fields of `class Document` that the claims are
about.  `wrapperExists` models `_loKitDocument != nullptr` (the wrapper object
returned by `lok::Office::documentLoad`, non-null even for a failed load) and
`handleValid` models `_loKitDocument->get() != nullptr` (the engine handle). -/
structure DocState where
  jailId : String
  docKey : String
  url : String
  jailedUrl : String
  renderOpts : String
  docPassword : String
  haveDocPassword : Bool
  isDocPasswordProtected : Bool
  docPasswordType : PasswordType
  isLoading : Nat
  clientViews : Nat
  sessions : List (String × ChildSession)
  wrapperExists : Bool
  handleValid : Bool
  descriptors : List Int
  deriving DecidableEq, Repr

/-- The `Document` constructor (LOOLKit.cpp, `Document::Document`): every
password/state field starts in its written initial value. -/
def newDocument (jailId docKey url : String) : DocState :=
  { jailId := jailId, docKey := docKey, url := url, jailedUrl := "",
    renderOpts := "", docPassword := "", haveDocPassword := false,
    isDocPasswordProtected := false, docPasswordType := .ToView,
    isLoading := 0, clientViews := 0, sessions := [],
    wrapperExists := false, handleValid := false, descriptors := [] }

/-- `Document::createSession`.  The `catch` branch (returning false on a thrown
`std::exception`) is outside the model, which has no allocation failures. -/
def createSession (st : DocState) (sessionId : String) : Bool × DocState :=
  match st.sessions.lookup sessionId with
  | some _ => (true, st)
  | none =>
      (true, { st with sessions := insertSorted st.sessions sessionId (newChildSession sessionId) })

/-- Result of `Document::purgeSessions`: the non-blocking `try_lock` failure
(`return -1`), the blunt `std::_Exit(Application::EXIT_OK)` (carrying the exit
code), or the remaining session count together with the purged map. -/
inductive PurgeResult
  | unavailable
  | exits (code : Nat)
  | remaining (n : Nat) (sessions : List (String × ChildSession))
  deriving DecidableEq, Repr

/-- Number of sessions whose close-frame flag is not set (`numRunning`). -/
def liveCount (m : List (String × ChildSession)) : Nat :=
  (m.filter (fun p => !p.2.isCloseFrame)).length

/-- The sessions left after erasing every close-frame session. -/
def sessionsAfterPurge (m : List (String × ChildSession)) : List (String × ChildSession) :=
  m.filter (fun p => !p.2.isCloseFrame)

/-- `Document::purgeSessions`.  `mutexAvailable` models whether the
non-blocking `try_lock` on `_mutex` succeeds.  `Application::EXIT_OK = 0`. -/
def purgeSessions (mutexAvailable : Bool) (m : List (String × ChildSession)) : PurgeResult :=
  if !mutexAvailable then
    .unavailable
  else if liveCount m = 0 then
    .exits 0
  else
    .remaining (sessionsAfterPurge m).length (sessionsAfterPurge m)

/-- The bit width of `size_t` on the target (64-bit Linux). -/
def sizeTBits : Nat := 64

/-- The value `purgeSessions` actually returns through its `size_t` return
type: `return -1` converts to `2 ^ 64 - 1`.  `none` means the call did not
return (the process exited). -/
def purgeReturnValue (mutexAvailable : Bool) (m : List (String × ChildSession)) : Option Nat :=
  match purgeSessions mutexAvailable m with
  | .unavailable => some (2 ^ sizeTBits - 1)
  | .exits _ => none
  | .remaining n _ => some n

/-- `Document::hasSessions`: `purgeSessions() != 0`.  `none` propagates a
process exit inside `purgeSessions`. -/
def hasSessions (mutexAvailable : Bool) (m : List (String × ChildSession)) : Option Bool :=
  (purgeReturnValue mutexAvailable m).map (fun n => !(n == 0))

/-- `Document::canDiscard`: `!hasSessions()`. -/
def canDiscard (mutexAvailable : Bool) (m : List (String × ChildSession)) : Option Bool :=
  (hasSessions mutexAvailable m).map (fun b => !b)

/-- `Document::setDocumentPassword` (the state part).  The engine-side
`_loKit->setDocumentPassword(url, pw-or-null)` resubmission has no effect on
the Document state and is not tracked. -/
def setDocumentPassword (st : DocState) (t : PwCallback) : DocState :=
  if st.isDocPasswordProtected && st.haveDocPassword then
    st
  else
    let st1 := { st with isDocPasswordProtected := true }
    match t with
    | .toView => { st1 with docPasswordType := .ToView }
    | .toModify => { st1 with docPasswordType := .ToModify }

/-- The suffix of the error frame for a required password
(`"to-view"` / `"to-modify"`). -/
def pwKindStr : PasswordType → String
  | .ToView => "to-view"
  | .ToModify => "to-modify"

/-- The password type a given callback records
(`LOK_CALLBACK_DOCUMENT_PASSWORD` records ToView, `..._TO_MODIFY` ToModify). -/
def pwTypeOf : PwCallback → PasswordType
  | .toView => .ToView
  | .toModify => .ToModify

/-- What `Document::load` produces: the updated state, the text frames sent to
the requesting session, whether the returned pointer was null, and whether
`createView` was called. -/
structure LoadOutcome where
  st : DocState
  frames : List String
  returnedDoc : Bool
  viewCreated : Bool
  deriving DecidableEq, Repr

/-- The common tail of `Document::load`: `initializeForRendering`, storing the
fresh view id on the session and registering the per-view callback.  The view
id comes from the engine (`getView`), here the parameter `engineViewId`. -/
def finishLoad (st : DocState) (sessionId : String) (engineViewId : Int)
    (viewCreated : Bool) : LoadOutcome :=
  let sessions := st.sessions.map
    (fun p => if p.1 = sessionId then (p.1, { p.2 with viewId := engineViewId }) else p)
  { st := { st with sessions := sessions, descriptors := st.descriptors ++ [engineViewId] },
    frames := [], returnedDoc := true, viewCreated := viewCreated }

/-- The Document state once the first-load branch has saved the provided
password, the jailed url, reset the protection flag (LOOLKit.cpp first-load
branch of `load`) and `documentLoad` has run the password callbacks `events`
through `GlobalCallback`/`setDocumentPassword`. -/
def firstLoadState (st : DocState) (uri docPassword : String) (haveDocPassword : Bool)
    (events : List PwCallback) : DocState :=
  events.foldl setDocumentPassword
    { st with haveDocPassword := haveDocPassword, docPassword := docPassword,
              jailedUrl := uri, isDocPasswordProtected := false }

/-- `Document::load`.  The engine behaviour during `documentLoad` is a
parameter: `events` is the sequence of password callbacks the engine fires
(each runs `setDocumentPassword` through `GlobalCallback`), `engineGivesDoc`
says whether the returned wrapper holds a live handle, and `engineViewId` is
the view id `getView` reports at the end of a successful load. -/
def load (st : DocState) (sessionId uri userName docPassword : String)
    (renderOpts : String) (haveDocPassword : Bool)
    (events : List PwCallback) (engineGivesDoc : Bool) (engineViewId : Int) : LoadOutcome :=
  match st.sessions.lookup sessionId with
  | none => { st := st, frames := [], returnedDoc := false, viewCreated := false }
  | some _ =>
    if !st.wrapperExists then
      -- First load: save password/url state, then documentLoad with callbacks.
      let st2 := firstLoadState st uri docPassword haveDocPassword events
      let st3 := { st2 with wrapperExists := true, handleValid := engineGivesDoc }
      if !engineGivesDoc then
        let frames :=
          if st3.isDocPasswordProtected then
            if !st3.haveDocPassword then
              ["error: cmd=load kind=passwordrequired:" ++ pwKindStr st3.docPasswordType]
            else
              ["error: cmd=load kind=wrongpassword"]
          else []
        { st := st3, frames := frames, returnedDoc := false, viewCreated := false }
      else
        finishLoad { st3 with renderOpts := renderOpts } sessionId engineViewId false
    else
      -- Subsequent load: validate the password, then createView.
      if st.isDocPasswordProtected then
        if !haveDocPassword then
          { st := st,
            frames := ["error: cmd=load kind=passwordrequired:" ++ pwKindStr st.docPasswordType],
            returnedDoc := false, viewCreated := false }
        else if docPassword ≠ st.docPassword then
          { st := st, frames := ["error: cmd=load kind=wrongpassword"],
            returnedDoc := false, viewCreated := false }
        else
          finishLoad st sessionId engineViewId true
      else
        finishLoad st sessionId engineViewId true

/-- What `Document::onLoad` produces: state, frames sent to the requesting
session, whether the returned pointer was non-null, and whether
`_cvLoading.notify_one()` ran. -/
structure OnLoadOutcome where
  st : DocState
  frames : List String
  returnedDoc : Bool
  notified : Bool
  deriving DecidableEq, Repr

/-- `Document::onLoad`.  The `while (_isLoading) _cvLoading.wait(lock)` entry
loop is a no-op once the observed `_isLoading` is zero, which is the situation
this sequential model describes; the function then increments `_isLoading`,
runs `load`, and on the success path increments `_clientViews`, decrements
`_isLoading` and notifies.  Note the null check is on the *member*
`_loKitDocument` (wrapper and handle), not on `load`'s return value. -/
def onLoad (st : DocState) (sessionId uri userName docPassword : String)
    (renderOpts : String) (haveDocPassword : Bool)
    (events : List PwCallback) (engineGivesDoc : Bool) (engineViewId : Int) : OnLoadOutcome :=
  let stA := { st with isLoading := st.isLoading + 1 }
  let r := load stA sessionId uri userName docPassword renderOpts haveDocPassword
             events engineGivesDoc engineViewId
  if !(r.st.wrapperExists && r.st.handleValid) then
    -- Early return: `--_isLoading` and the notify are skipped.
    { st := r.st, frames := r.frames, returnedDoc := false, notified := false }
  else
    { st := { r.st with clientViews := r.st.clientViews + 1,
                        isLoading := r.st.isLoading - 1 },
      frames := r.frames, returnedDoc := true, notified := true }

/-- A frame on the control socket. -/
structure Frame where
  binary : Bool
  payload : String
  deriving DecidableEq, Repr

/-- The send tail of `Document::renderTile` (its last lines): `output` is the
encoded response buffer (`tile:` header plus PNG bytes); `small` is
`SMALL_MESSAGE_SIZE`. -/
def renderTileSend (small : Nat) (output : String) : List Frame :=
  let length := output.length
  (if length > small then
     [{ binary := false, payload := "nextmessage: size=" ++ toString length }]
   else []) ++ [{ binary := true, payload := output }]

/-- The send tail of `Document::renderCombinedTiles`: `response` is the
serialized `tilecombine:` header plus the concatenated PNGs. -/
def renderCombinedTilesSend (small : Nat) (response : String) : List Frame :=
  let length := response.length
  (if length > small then
     [{ binary := false, payload := "nextmessage: size=" ++ toString length }]
   else []) ++ [{ binary := true, payload := response }]

/-- `Document::sendTextFrame`.  `wsBad` models `!_ws || poll(error)`; in that
case nothing is sent and false is returned. -/
def sendTextFrameSend (small : Nat) (wsBad : Bool) (message : String) : List Frame × Bool :=
  if wsBad then ([], false)
  else
    let length := message.length
    ((if length > small then
        [{ binary := false, payload := "nextmessage: size=" ++ toString length }]
      else []) ++ [{ binary := false, payload := message }], true)

/-- The engine callback type, as far as the modelled code inspects it.  The
code only compares it against specific `LOK_CALLBACK_*` enumerators, so the
exact numeric values are irrelevant; `other n` covers the rest. -/
inductive LokCallbackType
  | invalidateVisibleCursor
  | cellCursor
  | invalidateViewCursor
  | cellViewCursor
  | other (n : Nat)
  deriving DecidableEq, Repr

/-- The `callback` branch of `Document::run` (the dispatch loop), applied to a
dequeued message already split into `viewId`, `type` and `payload`.  Returns
the list of `(sessionId, type, payload)` deliveries
(`session->loKitCallback(type, payload)` calls).  Faithful to the loop: the
`break` ends the scan at the *first* session whose view id matches (or at the
first session outright when `viewId == -1`), and a matching close-frame
session drops the message. -/
def dispatchCallback (sessions : List (String × ChildSession)) (viewId : Int)
    (ty : LokCallbackType) (payload : String) : List (String × LokCallbackType × String) :=
  match sessions with
  | [] => []
  | (sid, s) :: rest =>
      if s.viewId == viewId || viewId == -1 then
        if !s.isCloseFrame then [(sid, ty, payload)] else []
      else
        dispatchCallback rest viewId ty payload

/-- One hexadecimal digit. -/
def hexDigit (c : Char) : Option Nat :=
  let n := c.toNat
  if 48 ≤ n ∧ n ≤ 57 then some (n - 48)
  else if 65 ≤ n ∧ n ≤ 70 then some (n - 55)
  else if 97 ≤ n ∧ n ≤ 102 then some (n - 87)
  else none

/-- Percent-decoding as `Poco::URI::decode` performs it: `%XY` with two hex
digits becomes the coded character; a malformed escape throws
(`URISyntaxException`), modelled as `none`. -/
def percentDecodeChars : List Char → Option (List Char)
  | [] => some []
  | c :: rest =>
      if c = '%' then
        match rest with
        | a :: b :: rest2 =>
            match hexDigit a, hexDigit b with
            | some ha, some hb =>
                (percentDecodeChars rest2).map (fun t => Char.ofNat (ha * 16 + hb) :: t)
            | _, _ => none
        | _ => none
      else
        (percentDecodeChars rest).map (fun t => c :: t)

/-- `Poco::URI::decode` on a whole string. -/
def urlDecode (s : String) : Option String :=
  (percentDecodeChars s.data).map (fun cs => String.mk cs)

/-- The `session` branch of the `SocketProcessor` handler in `lokit_main`:
given the current process-wide `document` and the two message tokens, returns
`(document-after, createSessionCalled, createSessionResult)`.  `none` means
`URI::decode` threw.  Faithful to the source: the validation
`url == document->getUrl() && document->createSession(sessionId)`
short-circuits, so `createSession` is *not called* when the URLs differ. -/
def handleSessionMessage (doc : Option DocState) (jailId sessionId docKey : String) :
    Option (DocState × Bool × Bool) :=
  match urlDecode docKey with
  | none => none
  | some url =>
    let d := match doc with
      | none => newDocument jailId docKey url
      | some d0 => d0
    if url = d.url then
      let (ok, d') := createSession d sessionId
      some (d', true, ok)
    else
      some (d, false, false)

/-- The `{` character, kept out of literals. -/
def lbraceChar : Char := Char.ofNat 123

/-- The `}` character. -/
def rbraceChar : Char := Char.ofNat 125

/-- The `"` character. -/
def quoteChar : Char := Char.ofNat 34

/-- Drop leading whitespace. -/
def skipWs (cs : List Char) : List Char :=
  cs.dropWhile (fun c => c.isWhitespace)

/-- Trim whitespace at both ends (what `TOK_TRIM` does to a token). -/
def trimChars (cs : List Char) : List Char :=
  ((skipWs cs).reverse.dropWhile (fun c => c.isWhitespace)).reverse

/-- Split on `,` keeping empty pieces (they are filtered afterwards, as
`TOK_IGNORE_EMPTY` does). -/
def splitOnComma : List Char → List (List Char)
  | [] => [[]]
  | c :: rest =>
      let r := splitOnComma rest
      if c = ',' then [] :: r
      else
        match r with
        | t :: ts => (c :: t) :: ts
        | [] => [[c]]

/-- `Poco::StringTokenizer(s, ",", TOK_IGNORE_EMPTY | TOK_TRIM)`. -/
def tokenizeCSV (s : String) : List String :=
  (((splitOnComma s.data).map trimChars).filter (fun t => !t.isEmpty)).map
    (fun t => String.mk t)

/-- Digits-to-value; `none` when there is no leading digit (then `std::stoi`
throws `invalid_argument`). -/
def digitsVal (cs : List Char) : Option Nat :=
  let ds := cs.takeWhile (fun c => c.isDigit)
  if ds.isEmpty then none
  else some (ds.foldl (fun a c => a * 10 + (c.toNat - 48)) 0)

/-- `std::stoi`: skip leading whitespace, optional sign, at least one digit,
trailing characters ignored.  The `int` range is not modelled (no payload in
the claims overflows). -/
def stoiOpt (s : String) : Option Int :=
  match skipWs s.data with
  | [] => none
  | c :: rest =>
      if c = '-' then (digitsVal rest).map (fun n => -(n : Int))
      else if c = '+' then (digitsVal rest).map (fun n => (n : Int))
      else (digitsVal (c :: rest)).map (fun n => (n : Int))

/-- Read a JSON string body up to the closing quote (escapes do not occur in
the payloads the engine produces and are not modelled). -/
def takeStringBody : List Char → List Char → Option (String × List Char)
  | [], _ => none
  | c :: rest, acc =>
      if c = quoteChar then some (String.mk acc.reverse, rest)
      else takeStringBody rest (c :: acc)

/-- Read one scalar JSON value — a quoted string or a bare token up to `,` or
the closing brace — as the string `Poco::Dynamic::Var::toString` yields. -/
def parseScalar (cs : List Char) : Option (String × List Char) :=
  match skipWs cs with
  | [] => none
  | c :: rest =>
      if c = quoteChar then takeStringBody rest []
      else
        let tok := (c :: rest).takeWhile (fun d => !(d = ',') && !(d = rbraceChar))
        let remaining := (c :: rest).dropWhile (fun d => !(d = ',') && !(d = rbraceChar))
        let t := trimChars tok
        if t.isEmpty then none else some (String.mk t, remaining)

/-- Read `"key": value` pairs separated by `,` up to the closing brace. -/
def parsePairs (fuel : Nat) (cs : List Char) : Option (List (String × String) × List Char) :=
  match fuel with
  | 0 => none
  | fuel' + 1 =>
    match skipWs cs with
    | [] => none
    | c :: rest =>
        if c = quoteChar then
          match takeStringBody rest [] with
          | none => none
          | some (key, afterKey) =>
            match skipWs afterKey with
            | ':' :: afterColon =>
              match parseScalar afterColon with
              | none => none
              | some (v, afterVal) =>
                match skipWs afterVal with
                | c2 :: rest2 =>
                    if c2 = ',' then
                      match parsePairs fuel' rest2 with
                      | some (ps, rem) => some ((key, v) :: ps, rem)
                      | none => none
                    else if c2 = rbraceChar then
                      some ([(key, v)], rest2)
                    else none
                | [] => none
            | _ => none
        else none

/-- `Poco::JSON::Parser::parse` restricted to the flat objects the view-cursor
payloads are; anything that is not such an object throws
(`Poco::JSON::JSONException`), modelled as `none` — in particular the literal
`EMPTY` is not JSON. -/
def jsonParseObj (s : String) : Option (List (String × String)) :=
  match skipWs s.data with
  | [] => none
  | c :: rest =>
      if c = lbraceChar then
        match skipWs rest with
        | [] => none
        | c2 :: rest2 =>
            if c2 = rbraceChar then
              if (skipWs rest2).isEmpty then some [] else none
            else
              match parsePairs (s.length + 1) (c2 :: rest2) with
              | some (ps, rem) => if (skipWs rem).isEmpty then some ps else none
              | none => none
      else none

/-- A queue message, kept structured: the code enqueues the text
`"callback " + to_string(viewId) + " " + to_string(type) + " " + payload`
and the dispatcher parses the same three fields back. -/
inductive QueueMsg
  | callback (viewId : Int) (ty : LokCallbackType) (payload : String)
  deriving DecidableEq, Repr

/-- Modelled from the spec: `TileQueue` lives in MessageQueue.cpp, which is not
among the sources.  Spec section 4.5: the queue is a FIFO of payloads and
stores, per `(viewId, part)`, the most recently reported cursor rectangle. -/
structure TileQueueState where
  cursors : List ((Int × Int) × (Int × Int × Int × Int))
  queue : List QueueMsg
  deriving DecidableEq, Repr

/-- Modelled from the spec: `TileQueue::updateCursorPosition` replaces the
stored rectangle for `(viewId, part)`. -/
def updateCursorPosition (st : TileQueueState) (viewId part x y w h : Int) : TileQueueState :=
  { st with cursors :=
      ((viewId, part), (x, y, w, h)) ::
        st.cursors.filter (fun e => !(e.1 == (viewId, part))) }

/-- Modelled from the spec: `TileQueue::put` appends to the FIFO. -/
def tqPut (st : TileQueueState) (m : QueueMsg) : TileQueueState :=
  { st with queue := st.queue ++ [m] }

/-- `Document::ViewCallback`.  `termFlag` is the process-wide
`TerminationFlag`; `descrViewId` is `pDescr->ViewId`.  `none` models an
exception escaping the callback (a throwing `std::stoi`, a throwing JSON
parse, or `get(...).toString()` on a missing key), in which case the final
`put` is never reached. -/
def viewCallback (termFlag : Bool) (descrViewId : Int) (nType : LokCallbackType)
    (payload : String) (st : TileQueueState) : Option TileQueueState :=
  if termFlag then some st
  else
    let enq := fun (st' : TileQueueState) =>
      some (tqPut st' (QueueMsg.callback descrViewId nType payload))
    if nType = .invalidateVisibleCursor ∨ nType = .cellCursor then
      match tokenizeCSV payload with
      | [a, b, c, d] =>
          match stoiOpt a, stoiOpt b, stoiOpt c, stoiOpt d with
          | some x, some y, some w, some h =>
              enq (updateCursorPosition st 0 0 x y w h)
          | _, _, _, _ => none
      | _ => enq st
    else if nType = .invalidateViewCursor ∨ nType = .cellViewCursor then
      match jsonParseObj payload with
      | none => none
      | some fields =>
        match fields.lookup "viewId", fields.lookup "part", fields.lookup "rectangle" with
        | some v, some p, some text =>
            match tokenizeCSV text with
            | [a, b, c, d] =>
                match stoiOpt a, stoiOpt b, stoiOpt c, stoiOpt d, stoiOpt v, stoiOpt p with
                | some x, some y, some w, some h, some vi, some pi =>
                    enq (updateCursorPosition st vi pi x y w h)
                | _, _, _, _, _, _ => none
            | _ => enq st
        | _, _, _ => none
    else enq st

/-! ## Helper lemmas -/

theorem lookup_insertSorted_self (m : List (String × ChildSession)) (k : String)
    (v : ChildSession) (h : m.lookup k = none) :
    (insertSorted m k v).lookup k = some v := by
  induction m with
  | nil => simp [insertSorted, List.lookup]
  | cons hd tl ih =>
      obtain ⟨k', v'⟩ := hd
      simp only [List.lookup] at h
      by_cases hk : (k == k') = true
      · simp [hk] at h
      · simp only [hk, Bool.false_eq_true, if_false] at h
        simp only [insertSorted]
        by_cases hlt : k < k'
        · simp [hlt, List.lookup]
        · simp [hlt, List.lookup, hk, ih h]

theorem length_insertSorted (m : List (String × ChildSession)) (k : String)
    (v : ChildSession) : (insertSorted m k v).length = m.length + 1 := by
  induction m with
  | nil => simp [insertSorted]
  | cons hd tl ih =>
      obtain ⟨k', v'⟩ := hd
      simp only [insertSorted]
      by_cases hlt : k < k'
      · simp [hlt]
      · simp [hlt, ih]

theorem setpw_protects (st : DocState) (e : PwCallback) :
    (setDocumentPassword st e).isDocPasswordProtected = true := by
  unfold setDocumentPassword
  by_cases h : (st.isDocPasswordProtected && st.haveDocPassword) = true
  · simp only [h, if_true]
    exact (Bool.and_eq_true _ _ |>.mp h).1
  · simp only [h, if_false]
    cases e <;> rfl

theorem setpw_haveDocPassword (st : DocState) (e : PwCallback) :
    (setDocumentPassword st e).haveDocPassword = st.haveDocPassword := by
  unfold setDocumentPassword
  by_cases h : (st.isDocPasswordProtected && st.haveDocPassword) = true
  · simp [h]
  · simp only [h, if_false]
    cases e <;> rfl

theorem setpw_type_of_not_have (st : DocState) (e : PwCallback)
    (h : st.haveDocPassword = false) :
    (setDocumentPassword st e).docPasswordType = pwTypeOf e := by
  unfold setDocumentPassword
  simp only [h, Bool.and_false, Bool.false_eq_true, if_false]
  cases e <;> rfl

theorem setpw_noop (st : DocState) (e : PwCallback)
    (h1 : st.isDocPasswordProtected = true) (h2 : st.haveDocPassword = true) :
    setDocumentPassword st e = st := by
  unfold setDocumentPassword
  simp [h1, h2]

theorem foldl_setpw_haveDocPassword (es : List PwCallback) (st : DocState) :
    (es.foldl setDocumentPassword st).haveDocPassword = st.haveDocPassword := by
  induction es generalizing st with
  | nil => rfl
  | cons e es ih => simp only [List.foldl_cons, ih, setpw_haveDocPassword]

theorem foldl_setpw_noop (es : List PwCallback) (st : DocState)
    (h1 : st.isDocPasswordProtected = true) (h2 : st.haveDocPassword = true) :
    es.foldl setDocumentPassword st = st := by
  induction es with
  | nil => rfl
  | cons e es ih => simp only [List.foldl_cons, setpw_noop st e h1 h2, ih]

theorem foldl_setpw_last (es : List PwCallback) (e : PwCallback) (st : DocState)
    (h : st.haveDocPassword = false) :
    ((es ++ [e]).foldl setDocumentPassword st).docPasswordType = pwTypeOf e ∧
    ((es ++ [e]).foldl setDocumentPassword st).isDocPasswordProtected = true ∧
    ((es ++ [e]).foldl setDocumentPassword st).haveDocPassword = false := by
  rw [List.foldl_append]
  have hhave : (es.foldl setDocumentPassword st).haveDocPassword = false := by
    rw [foldl_setpw_haveDocPassword]; exact h
  refine ⟨?_, ?_, ?_⟩
  · simpa using setpw_type_of_not_have _ e hhave
  · simpa using setpw_protects (es.foldl setDocumentPassword st) e
  · simpa [setpw_haveDocPassword] using hhave

theorem foldl_setpw_first (e : PwCallback) (es : List PwCallback) (st : DocState)
    (h2 : st.haveDocPassword = true) :
    (e :: es).foldl setDocumentPassword st = setDocumentPassword st e ∧
    ((e :: es).foldl setDocumentPassword st).isDocPasswordProtected = true ∧
    ((e :: es).foldl setDocumentPassword st).haveDocPassword = true := by
  have hstep := setpw_protects st e
  have hhave : (setDocumentPassword st e).haveDocPassword = true := by
    rw [setpw_haveDocPassword]; exact h2
  have hfold : (e :: es).foldl setDocumentPassword st = setDocumentPassword st e := by
    simp only [List.foldl_cons]
    exact foldl_setpw_noop es _ hstep hhave
  exact ⟨hfold, by rw [hfold]; exact hstep, by rw [hfold]; exact hhave⟩

/-! ## Claim theorems -/

/-- C8: in `COPY_LO` mode `shouldCopyDir` returns false exactly for the seven
listed relative directory paths; in `COPY_NO_USR` mode exactly for `usr`; in
`COPY_ALL` mode it returns true for every path. -/
theorem shouldCopyDir_spec (p : String) :
    (shouldCopyDir .COPY_LO p = false ↔ p ∈ loSkippedDirs) ∧
    (shouldCopyDir .COPY_NO_USR p = false ↔ p = "usr") ∧
    shouldCopyDir .COPY_ALL p = true := by
  refine ⟨?_, ?_, rfl⟩
  · have htrue : shouldCopyDir .COPY_LO p = true ↔ ¬ p ∈ loSkippedDirs := by
      simp only [shouldCopyDir, Bool.and_eq_true, Bool.not_eq_true', beq_eq_false_iff_ne,
        loSkippedDirs, List.mem_cons, List.not_mem_nil, or_false]
      tauto
    have hfb : shouldCopyDir .COPY_LO p = false ↔ ¬ shouldCopyDir .COPY_LO p = true := by
      cases hsc : shouldCopyDir .COPY_LO p <;> simp
    rw [hfb, htrue, not_not]
  · simp [shouldCopyDir]

/-- Witness for C8 at the concrete path `share/basic`. -/
theorem shouldCopyDir_spec_witness :
    shouldCopyDir .COPY_LO "share/basic" = false ∧
    shouldCopyDir .COPY_NO_USR "usr" = false ∧
    shouldCopyDir .COPY_ALL "share/basic" = true :=
  ⟨(shouldCopyDir_spec "share/basic").1.mpr (by decide),
   (shouldCopyDir_spec "usr").2.1.mpr rfl,
   (shouldCopyDir_spec "share/basic").2.2⟩

/-- C4: `purgeSessions` returns the `unavailable` sentinel when the document
mutex cannot be taken; with the mutex and no live session (close-frame flag
clear) it exits the process with the success code; otherwise it erases exactly
the close-frame sessions and returns the remaining count. -/
theorem purgeSessions_spec (m : List (String × ChildSession)) :
    purgeSessions false m = .unavailable ∧
    (liveCount m = 0 → purgeSessions true m = .exits 0) ∧
    (0 < liveCount m →
       purgeSessions true m =
         .remaining (sessionsAfterPurge m).length (sessionsAfterPurge m) ∧
       (sessionsAfterPurge m).length = liveCount m ∧
       ∀ q, q ∈ sessionsAfterPurge m ↔ (q ∈ m ∧ q.2.isCloseFrame = false)) := by
  refine ⟨rfl, ?_, ?_⟩
  · intro h
    simp [purgeSessions, h]
  · intro h
    refine ⟨?_, rfl, ?_⟩
    · simp [purgeSessions, Nat.pos_iff_ne_zero.mp h]
    · intro q
      simp [sessionsAfterPurge, List.mem_filter]

/-- Witness for C4: one live and one close-frame session; the purge keeps
exactly the live one, and the all-closed map makes the process exit. -/
theorem purgeSessions_spec_witness :
    purgeSessions false [] = .unavailable ∧
    purgeSessions true [("a", { sessionId := "a", viewId := 0,
                                isCloseFrame := true, isActive := false })] = .exits 0 ∧
    purgeSessions true
        [("a", { sessionId := "a", viewId := 0, isCloseFrame := true, isActive := false }),
         ("b", { sessionId := "b", viewId := 1, isCloseFrame := false, isActive := true })] =
      .remaining 1
        [("b", { sessionId := "b", viewId := 1, isCloseFrame := false, isActive := true })] :=
  ⟨(purgeSessions_spec []).1,
   (purgeSessions_spec _).2.1 (by decide),
   ((purgeSessions_spec
       [("a", { sessionId := "a", viewId := 0, isCloseFrame := true, isActive := false }),
        ("b", { sessionId := "b", viewId := 1, isCloseFrame := false, isActive := true })]).2.2
     (by decide)).1⟩

/-- C5: `createSession` is idempotent: it always returns true; on an existing
session id the Document state is unchanged; on a fresh id exactly one
ChildSession is inserted; a repeated call is a no-op; and it never loads the
document (the engine wrapper/handle state and view counter are untouched). -/
theorem createSession_spec (st : DocState) (sid : String) :
    (createSession st sid).1 = true ∧
    ((st.sessions.lookup sid).isSome → (createSession st sid).2 = st) ∧
    ((st.sessions.lookup sid).isNone →
       (createSession st sid).2.sessions = insertSorted st.sessions sid (newChildSession sid) ∧
       (createSession st sid).2.sessions.length = st.sessions.length + 1) ∧
    createSession (createSession st sid).2 sid = (true, (createSession st sid).2) ∧
    (createSession st sid).2.wrapperExists = st.wrapperExists ∧
    (createSession st sid).2.handleValid = st.handleValid ∧
    (createSession st sid).2.clientViews = st.clientViews := by
  rcases hl : st.sessions.lookup sid with _ | s
  · refine ⟨by simp [createSession, hl], by simp [hl], ?_, ?_, ?_, ?_, ?_⟩
    · intro _
      exact ⟨by simp [createSession, hl], by simp [createSession, hl, length_insertSorted]⟩
    · have h2 : (createSession st sid).2.sessions.lookup sid = some (newChildSession sid) := by
        simp only [createSession, hl]
        exact lookup_insertSorted_self st.sessions sid (newChildSession sid) hl
      simp only [createSession] at h2 ⊢
      simp only [hl]
      simp only [createSession, hl] at h2
      simp [h2]
    · simp [createSession, hl]
    · simp [createSession, hl]
    · simp [createSession, hl]
  · refine ⟨by simp [createSession, hl], by simp [createSession, hl], ?_, ?_, ?_, ?_, ?_⟩
    · intro habs
      simp [hl] at habs
    · simp [createSession, hl]
    · simp [createSession, hl]
    · simp [createSession, hl]
    · simp [createSession, hl]

/-- Witness for C5: creating session `s1` twice on a fresh Document yields one
ChildSession; the second call is a no-op returning true. -/
theorem createSession_spec_witness :
    ((newDocument "42" "k" "u").sessions.lookup "s1").isNone ∧
    (createSession (newDocument "42" "k" "u") "s1").2.sessions.length = 1 ∧
    createSession (createSession (newDocument "42" "k" "u") "s1").2 "s1" =
      (true, (createSession (newDocument "42" "k" "u") "s1").2) :=
  ⟨by decide,
   by
     have h := ((createSession_spec (newDocument "42" "k" "u") "s1").2.2.1 (by decide)).2
     simpa using h,
   (createSession_spec (newDocument "42" "k" "u") "s1").2.2.2.1⟩

/-- C10: the `-1` failure sentinel of `purgeSessions`, returned through the
unsigned `size_t` type, is the largest unsigned value; hence on mutex
contention `hasSessions` (`purgeSessions() != 0`) is true and `canDiscard` is
false — exactly what `canDiscard` also yields when live sessions exist, so
contention can never trigger the exit path through this interface. -/
theorem canDiscard_contention_spec :
    2 ^ sizeTBits - 1 = ((-1 : Int) % ((2 : Int) ^ sizeTBits)).toNat ∧
    (∀ m, purgeReturnValue false m = some (2 ^ sizeTBits - 1) ∧
          hasSessions false m = some true ∧
          canDiscard false m = some false) ∧
    (∀ m, 0 < liveCount m →
          canDiscard true m = some false ∧ canDiscard true m = canDiscard false m) := by
  have hbig : ((2 ^ sizeTBits - 1 : Nat) == 0) = false := by decide
  refine ⟨by decide, ?_, ?_⟩
  · intro m
    refine ⟨rfl, ?_, ?_⟩ <;>
      simp [hasSessions, canDiscard, purgeReturnValue, purgeSessions, hbig]
  · intro m h
    have hz : ¬ liveCount m = 0 := Nat.pos_iff_ne_zero.mp h
    have hne : ((sessionsAfterPurge m).length == 0) = false := by
      have hlc : liveCount m = (sessionsAfterPurge m).length := rfl
      rw [hlc] at h
      simpa using Nat.pos_iff_ne_zero.mp h
    constructor
    · simp [canDiscard, hasSessions, purgeReturnValue, purgeSessions, hz, hne]
    · simp [canDiscard, hasSessions, purgeReturnValue, purgeSessions, hz, hne, hbig]

/-- Witness for C10 with one live session. -/
theorem canDiscard_contention_spec_witness :
    canDiscard false [("b", { sessionId := "b", viewId := 1,
                              isCloseFrame := false, isActive := true })] = some false ∧
    canDiscard true [("b", { sessionId := "b", viewId := 1,
                             isCloseFrame := false, isActive := true })] = some false :=
  ⟨((canDiscard_contention_spec.2.1 _).2.2),
   ((canDiscard_contention_spec.2.2 _ (by decide)).1)⟩

theorem firstLoadState_type_no_pw (st : DocState) (uri docPassword : String)
    (es : List PwCallback) (e : PwCallback) :
    (firstLoadState st uri docPassword false (es ++ [e])).docPasswordType = pwTypeOf e :=
  (foldl_setpw_last es e _ rfl).1

theorem firstLoadState_protected_no_pw (st : DocState) (uri docPassword : String)
    (es : List PwCallback) (e : PwCallback) :
    (firstLoadState st uri docPassword false (es ++ [e])).isDocPasswordProtected = true :=
  (foldl_setpw_last es e _ rfl).2.1

theorem firstLoadState_have_no_pw (st : DocState) (uri docPassword : String)
    (es : List PwCallback) (e : PwCallback) :
    (firstLoadState st uri docPassword false (es ++ [e])).haveDocPassword = false :=
  (foldl_setpw_last es e _ rfl).2.2

theorem firstLoadState_protected_with_pw (st : DocState) (uri docPassword : String)
    (e : PwCallback) (es : List PwCallback) :
    (firstLoadState st uri docPassword true (e :: es)).isDocPasswordProtected = true :=
  (foldl_setpw_first e es _ rfl).2.1

theorem firstLoadState_have_with_pw (st : DocState) (uri docPassword : String)
    (e : PwCallback) (es : List PwCallback) :
    (firstLoadState st uri docPassword true (e :: es)).haveDocPassword = true :=
  (foldl_setpw_first e es _ rfl).2.2

/-- C1 counterexample: a broadcast callback (`viewId == -1`) with two live
sessions is delivered only to the first session in map order; the second live
session receives nothing, refuting delivery "to every live ChildSession". -/
theorem dispatchCallback_broadcast_counterexample :
    dispatchCallback
        [("a", { sessionId := "a", viewId := 0, isCloseFrame := false, isActive := true }),
         ("b", { sessionId := "b", viewId := 1, isCloseFrame := false, isActive := true })]
        (-1) (LokCallbackType.other 0) "p"
      = [("a", LokCallbackType.other 0, "p")] ∧
    ("b", LokCallbackType.other 0, "p") ∉
      dispatchCallback
        [("a", { sessionId := "a", viewId := 0, isCloseFrame := false, isActive := true }),
         ("b", { sessionId := "b", viewId := 1, isCloseFrame := false, isActive := true })]
        (-1) (LokCallbackType.other 0) "p" := by
  decide

/-- C1 (amended): the `callback` branch delivers `(type, payload)` to at most
one session — the first in map iteration order whose view id equals `viewId`
(any session when `viewId == -1`) — and only when that session's close-frame
flag is clear; a matching close-frame session absorbs and drops the message. -/
theorem dispatchCallback_first_match_only (sessions : List (String × ChildSession))
    (viewId : Int) (ty : LokCallbackType) (payload : String) :
    dispatchCallback sessions viewId ty payload =
      (match sessions.find? (fun q => q.2.viewId == viewId || viewId == -1) with
       | none => []
       | some q => if q.2.isCloseFrame then [] else [(q.1, ty, payload)]) ∧
    (dispatchCallback sessions viewId ty payload).length ≤ 1 := by
  induction sessions with
  | nil => exact ⟨rfl, by simp [dispatchCallback]⟩
  | cons hd tl ih =>
      obtain ⟨sid, s⟩ := hd
      by_cases h : (s.viewId == viewId || viewId == -1) = true
      · constructor
        · simp only [dispatchCallback, h, if_true, List.find?_cons]
          cases hcf : s.isCloseFrame <;> simp
        · simp only [dispatchCallback, h, if_true]
          cases hcf : s.isCloseFrame <;> simp
      · have hb : (s.viewId == viewId || viewId == -1) = false :=
          Bool.not_eq_true _ |>.mp h
        constructor
        · simp only [dispatchCallback, hb, Bool.false_eq_true, if_false, List.find?_cons]
          simpa using ih.1
        · simpa [dispatchCallback, hb] using ih.2

/-- C2 (code bug): a failed first load — here a password-protected document
loaded without a password — returns null from `onLoad` but leaves
`_isLoading` incremented (1 instead of the pre-call 0) and never notifies
`_cvLoading`; `_clientViews` is unchanged as claimed.  Every later `onLoad`
would therefore wait forever on `_cvLoading`, contradicting the spec's load
serialization and its scenario S2 (a retry with a password must proceed). -/
theorem onLoad_leaks_isLoading_on_failed_load :
    (createSession (newDocument "42" "doc" "file:///a.odt") "s1").2.isLoading = 0 ∧
    (onLoad (createSession (newDocument "42" "doc" "file:///a.odt") "s1").2
        "s1" "file:///tmp/a.odt" "" "" "" false [PwCallback.toView] false 0).returnedDoc
      = false ∧
    (onLoad (createSession (newDocument "42" "doc" "file:///a.odt") "s1").2
        "s1" "file:///tmp/a.odt" "" "" "" false [PwCallback.toView] false 0).frames
      = ["error: cmd=load kind=passwordrequired:to-view"] ∧
    (onLoad (createSession (newDocument "42" "doc" "file:///a.odt") "s1").2
        "s1" "file:///tmp/a.odt" "" "" "" false [PwCallback.toView] false 0).st.isLoading
      = 1 ∧
    (onLoad (createSession (newDocument "42" "doc" "file:///a.odt") "s1").2
        "s1" "file:///tmp/a.odt" "" "" "" false [PwCallback.toView] false 0).notified
      = false ∧
    (onLoad (createSession (newDocument "42" "doc" "file:///a.odt") "s1").2
        "s1" "file:///tmp/a.odt" "" "" "" false [PwCallback.toView] false 0).st.clientViews
      = 0 := by
  decide

/-- C3: password error handling of `Document::load`/`onLoad`.  First load with
a null `documentLoad` after password callbacks: `onLoad` returns null and the
requesting session gets `passwordrequired:<kind>` (kind recorded by the last
callback) when no password was given, `wrongpassword` when one was given.
Subsequent load of a password-protected document: `passwordrequired` without a
password, `wrongpassword` on a mismatch, both returning null from `load`
without creating a view and leaving the state unchanged. -/
theorem load_password_errors_spec (st : DocState)
    (sid uri userName docPassword renderOpts : String) (vid : Int) :
    (∀ es e, (st.sessions.lookup sid).isSome = true → st.wrapperExists = false →
       (onLoad st sid uri userName docPassword renderOpts false (es ++ [e]) false vid).returnedDoc
           = false ∧
       (onLoad st sid uri userName docPassword renderOpts false (es ++ [e]) false vid).frames
           = ["error: cmd=load kind=passwordrequired:" ++ pwKindStr (pwTypeOf e)]) ∧
    (∀ e es, (st.sessions.lookup sid).isSome = true → st.wrapperExists = false →
       (onLoad st sid uri userName docPassword renderOpts true (e :: es) false vid).returnedDoc
           = false ∧
       (onLoad st sid uri userName docPassword renderOpts true (e :: es) false vid).frames
           = ["error: cmd=load kind=wrongpassword"]) ∧
    (∀ events gives, (st.sessions.lookup sid).isSome = true → st.wrapperExists = true →
       st.isDocPasswordProtected = true →
       load st sid uri userName docPassword renderOpts false events gives vid =
         { st := st,
           frames := ["error: cmd=load kind=passwordrequired:" ++ pwKindStr st.docPasswordType],
           returnedDoc := false, viewCreated := false }) ∧
    (∀ events gives, (st.sessions.lookup sid).isSome = true → st.wrapperExists = true →
       st.isDocPasswordProtected = true → ¬ docPassword = st.docPassword →
       load st sid uri userName docPassword renderOpts true events gives vid =
         { st := st, frames := ["error: cmd=load kind=wrongpassword"],
           returnedDoc := false, viewCreated := false }) := by
  refine ⟨?_, ?_, ?_, ?_⟩
  · intro es e hs hw
    obtain ⟨s, hlook⟩ := Option.isSome_iff_exists.mp hs
    simp [onLoad, load, hlook, hw, firstLoadState_type_no_pw,
      firstLoadState_protected_no_pw, firstLoadState_have_no_pw]
  · intro e es hs hw
    obtain ⟨s, hlook⟩ := Option.isSome_iff_exists.mp hs
    simp [onLoad, load, hlook, hw, firstLoadState_protected_with_pw,
      firstLoadState_have_with_pw]
  · intro events gives hs hw hprot
    obtain ⟨s, hlook⟩ := Option.isSome_iff_exists.mp hs
    simp [load, hlook, hw, hprot]
  · intro events gives hs hw hprot hne
    obtain ⟨s, hlook⟩ := Option.isSome_iff_exists.mp hs
    simp [load, hlook, hw, hprot, hne]

/-- Witness for C3: a concrete first load failing with
`passwordrequired:to-modify` and a concrete subsequent load failing with
`wrongpassword`. -/
theorem load_password_errors_spec_witness :
    (onLoad (createSession (newDocument "42" "doc" "u") "s1").2
        "s1" "u" "" "" "" false ([] ++ [PwCallback.toModify]) false 0).frames
      = ["error: cmd=load kind=passwordrequired:" ++ pwKindStr (pwTypeOf PwCallback.toModify)] ∧
    load { (createSession (newDocument "42" "doc" "u") "s1").2 with
           wrapperExists := true, handleValid := true,
           isDocPasswordProtected := true, docPassword := "right" }
        "s1" "u" "" "wrong" "" true [] false 0 =
      { st := { (createSession (newDocument "42" "doc" "u") "s1").2 with
                wrapperExists := true, handleValid := true,
                isDocPasswordProtected := true, docPassword := "right" },
        frames := ["error: cmd=load kind=wrongpassword"],
        returnedDoc := false, viewCreated := false } :=
  ⟨((load_password_errors_spec (createSession (newDocument "42" "doc" "u") "s1").2
      "s1" "u" "" "" "" 0).1 [] PwCallback.toModify (by decide) (by decide)).2,
   (load_password_errors_spec _ "s1" "u" "" "wrong" "" 0).2.2.2 [] false
      (by decide) rfl rfl (by decide)⟩

/-- C6 counterexample: with the Document bound to url `u1`, a `session`
message for a different url `u2` leaves the Document untouched and — because
`url == getUrl() && createSession(...)` short-circuits — never calls
`createSession` (second component `false` is the called-flag); the claim's
"createSession returns false" has no execution to witness, and had it been
called it would have returned true (last conjunct). -/
theorem sessionMessage_url_mismatch_counterexample :
    handleSessionMessage (some (newDocument "42" "u1" "u1")) "42" "s" "u2"
        = some (newDocument "42" "u1" "u1", false, false) ∧
    (createSession (newDocument "42" "u1" "u1") "s").1 = true := by
  decide

/-- C6 (amended): once the Document exists for url `U`, a `session` message
whose decoded url differs does not create a new Document, creates no
ChildSession, and fails the combined validation without invoking
`createSession` (the returned Document is the old one, unchanged). -/
theorem sessionMessage_url_mismatch_spec (doc : DocState)
    (jailId sessionId docKey url : String)
    (hdec : urlDecode docKey = some url) (hne : ¬ url = doc.url) :
    handleSessionMessage (some doc) jailId sessionId docKey = some (doc, false, false) := by
  simp [handleSessionMessage, hdec, hne]

/-- Witness for C6 (amended) at a concrete mismatching url. -/
theorem sessionMessage_url_mismatch_spec_witness :
    handleSessionMessage (some (newDocument "7" "a" "a")) "7" "sid" "b"
      = some (newDocument "7" "a" "a", false, false) :=
  sessionMessage_url_mismatch_spec (newDocument "7" "a" "a") "7" "sid" "b" "b"
    rfl (by decide)

/-- C7: each of the three senders — the `renderTile` response, the
`renderCombinedTiles` response and `sendTextFrame` — precedes a frame longer
than `SMALL_MESSAGE_SIZE` with exactly one `nextmessage: size=<N>` text frame
whose `N` is the byte length of the following frame, and sends no sentinel for
a frame of length at most `SMALL_MESSAGE_SIZE`. -/
theorem nextmessage_sentinel_spec (small : Nat) (output response message : String) :
    (output.length > small →
       renderTileSend small output =
         [{ binary := false, payload := "nextmessage: size=" ++ toString output.length },
          { binary := true, payload := output }]) ∧
    (output.length ≤ small →
       renderTileSend small output = [{ binary := true, payload := output }]) ∧
    (response.length > small →
       renderCombinedTilesSend small response =
         [{ binary := false, payload := "nextmessage: size=" ++ toString response.length },
          { binary := true, payload := response }]) ∧
    (response.length ≤ small →
       renderCombinedTilesSend small response = [{ binary := true, payload := response }]) ∧
    (message.length > small →
       sendTextFrameSend small false message =
         ([{ binary := false, payload := "nextmessage: size=" ++ toString message.length },
           { binary := false, payload := message }], true)) ∧
    (message.length ≤ small →
       sendTextFrameSend small false message = ([{ binary := false, payload := message }], true)) := by
  refine ⟨?_, ?_, ?_, ?_, ?_, ?_⟩ <;> intro h
  · simp [renderTileSend, h]
  · simp [renderTileSend, Nat.not_lt.mpr h]
  · simp [renderCombinedTilesSend, h]
  · simp [renderCombinedTilesSend, Nat.not_lt.mpr h]
  · simp [sendTextFrameSend, h]
  · simp [sendTextFrameSend, Nat.not_lt.mpr h]

/-- Witness for C7 with `SMALL_MESSAGE_SIZE = 3`, a 5-byte large frame and a
2-byte small frame. -/
theorem nextmessage_sentinel_spec_witness :
    renderTileSend 3 "abcde" =
      [{ binary := false, payload := "nextmessage: size=" ++ toString "abcde".length },
       { binary := true, payload := "abcde" }] ∧
    sendTextFrameSend 3 false "ab" = ([{ binary := false, payload := "ab" }], true) :=
  ⟨(nextmessage_sentinel_spec 3 "abcde" "x" "ab").1 (by decide),
   (nextmessage_sentinel_spec 3 "abcde" "x" "ab").2.2.2.2.2 (by decide)⟩

/-- C9 counterexample: a view-cursor callback (`INVALIDATE_VIEW_CURSOR`) whose
whole payload is the literal `EMPTY` makes the JSON parse throw before the
queue `put` is reached, so — contrary to the claim — no `callback ...`
message is enqueued in that case. -/
theorem viewCallback_empty_json_counterexample :
    viewCallback false 1 LokCallbackType.invalidateViewCursor "EMPTY"
      { cursors := [], queue := [] } = none := by
  rfl

/-- C9 (amended): with the termination flag clear, a plain-cursor callback
whose payload parses as four comma-separated integers updates the queue cursor
for `(viewId = 0, part = 0)` regardless of the callback's view and enqueues
the message; a view-cursor callback whose payload is a JSON object with
numeric `viewId`/`part` and a `rectangle` of four integers updates for that
`(viewId, part)` and enqueues; a plain-cursor payload `EMPTY` updates no
cursor but still enqueues, as does any other callback type; a view-cursor
payload that raises a parse error (e.g. the literal `EMPTY`) enqueues
nothing. -/
theorem viewCallback_spec (descrViewId : Int) (payload text v p : String)
    (st : TileQueueState) (a b c d : String) (x y w h vi pi : Int)
    (fields : List (String × String)) (n : Nat) :
    (∀ ty, ty = LokCallbackType.invalidateVisibleCursor ∨ ty = LokCallbackType.cellCursor →
       tokenizeCSV payload = [a, b, c, d] →
       stoiOpt a = some x → stoiOpt b = some y → stoiOpt c = some w → stoiOpt d = some h →
       viewCallback false descrViewId ty payload st =
         some (tqPut (updateCursorPosition st 0 0 x y w h)
                 (QueueMsg.callback descrViewId ty payload))) ∧
    (∀ ty, ty = LokCallbackType.invalidateViewCursor ∨ ty = LokCallbackType.cellViewCursor →
       jsonParseObj payload = some fields →
       fields.lookup "viewId" = some v → fields.lookup "part" = some p →
       fields.lookup "rectangle" = some text →
       tokenizeCSV text = [a, b, c, d] →
       stoiOpt a = some x → stoiOpt b = some y → stoiOpt c = some w → stoiOpt d = some h →
       stoiOpt v = some vi → stoiOpt p = some pi →
       viewCallback false descrViewId ty payload st =
         some (tqPut (updateCursorPosition st vi pi x y w h)
                 (QueueMsg.callback descrViewId ty payload))) ∧
    (∀ ty, ty = LokCallbackType.invalidateVisibleCursor ∨ ty = LokCallbackType.cellCursor →
       viewCallback false descrViewId ty "EMPTY" st =
         some (tqPut st (QueueMsg.callback descrViewId ty "EMPTY"))) ∧
    viewCallback false descrViewId (LokCallbackType.other n) payload st =
      some (tqPut st (QueueMsg.callback descrViewId (LokCallbackType.other n) payload)) := by
  have hempty : tokenizeCSV "EMPTY" = ["EMPTY"] := by rfl
  refine ⟨?_, ?_, ?_, ?_⟩
  · rintro ty (rfl | rfl) htok ha hb hc hd <;>
      simp [viewCallback, htok, ha, hb, hc, hd]
  · rintro ty (rfl | rfl) hjson hv hp htext htok ha hb hc hd hvi hpi <;>
      simp [viewCallback, hjson, hv, hp, htext, htok, ha, hb, hc, hd, hvi, hpi]
  · rintro ty (rfl | rfl) <;> simp [viewCallback, hempty]
  · simp [viewCallback]

/-- Witness for C9 (amended): a plain cursor update at `(0,0)` from view 7 and
a view-cursor update at `(2,1)` from a JSON payload. -/
theorem viewCallback_spec_witness :
    viewCallback false 7 LokCallbackType.cellCursor "1,2,3,4" { cursors := [], queue := [] } =
      some (tqPut (updateCursorPosition { cursors := [], queue := [] } 0 0 1 2 3 4)
              (QueueMsg.callback 7 LokCallbackType.cellCursor "1,2,3,4")) ∧
    viewCallback false 7 LokCallbackType.invalidateVisibleCursor "EMPTY"
        { cursors := [], queue := [] } =
      some (tqPut { cursors := [], queue := [] }
              (QueueMsg.callback 7 LokCallbackType.invalidateVisibleCursor "EMPTY")) :=
  ⟨(viewCallback_spec 7 "1,2,3,4" "" "" "" { cursors := [], queue := [] }
      "1" "2" "3" "4" 1 2 3 4 0 0 [] 0).1 LokCallbackType.cellCursor (Or.inr rfl)
      (by rfl) (by rfl) (by rfl) (by rfl) (by rfl),
   (viewCallback_spec 7 "1,2,3,4" "" "" "" { cursors := [], queue := [] }
      "1" "2" "3" "4" 1 2 3 4 0 0 [] 0).2.2.1 LokCallbackType.invalidateVisibleCursor
      (Or.inl rfl)⟩

end LOOLKit
